import Mathlib

/-!
Verification of `src/classifier.py` (lluichi/ticket-classifier).

The file shallowly embeds the support-ticket classification pipeline:
the pydantic schema check (`TicketClassification`), the retry loop of
`classify_ticket` with exponential backoff, the business-rule override of
`needs_human`, and the terminal failure dictionary.  External effects
(the Gemini API call, `time.time()`, `json.loads` of the response text)
are modelled as an oracle `client : ℕ → ModelResponse`, one value per
attempt number, carrying either a raised exception or the decoded JSON
payload together with the measured latency.
-/

namespace TicketClassifier

/-- Values produced by `json.loads`: JSON scalars, arrays and objects.
`num` covers both Python `int` and `float` results (a single JSON number
type), represented exactly as a rational. -/
inductive Json where
  | null
  | bool (b : Bool)
  | num (q : ℚ)
  | str (s : String)
  | arr (elems : List Json)
  | obj (fields : List (String × Json))

/-- A decoded top-level JSON object, as Python dict: ordered key/value
pairs (`json.loads` never yields duplicate keys in a dict). -/
abbrev Dict : Type := List (String × Json)

/-- Python `d.get(k)` / `d[k]`: the value stored under the first
occurrence of key `k`, if any. -/
def lookupKey (d : Dict) (k : String) : Option Json :=
  match d with
  | [] => none
  | (k0, v0) :: rest => if k0 = k then some v0 else lookupKey rest k

/-- Python `d[k] = v`: replace the value at key `k` in place, keeping the
insertion order; append the pair when the key is absent. -/
def setKey (d : Dict) (k : String) (v : Json) : Dict :=
  match d with
  | [] => [(k, v)]
  | (k0, v0) :: rest => if k0 = k then (k0, v) :: rest else (k0, v0) :: setKey rest k v

/-- The closed `Urgency` enumeration of `classifier.py` (lines 12-16):
membership of a string in `{critical, high, medium, low}`. -/
def isUrgency (s : String) : Bool :=
  s == "critical" || s == "high" || s == "medium" || s == "low"

/-- The closed `Intent` enumeration of `classifier.py` (lines 19-24):
membership of a string in `{complaint, question, request, feedback, bug_report}`. -/
def isIntent (s : String) : Bool :=
  s == "complaint" || s == "question" || s == "request" || s == "feedback" || s == "bug_report"

/-- Field check: the key holds a string satisfying `allowed` (a pydantic
`str`-valued `Enum` field). -/
def fieldStrIn (d : Dict) (k : String) (allowed : String → Bool) : Bool :=
  match lookupKey d k with
  | some (Json.str s) => allowed s
  | _ => false

/-- Field check: the key holds some string (a pydantic `str` field). -/
def fieldStr (d : Dict) (k : String) : Bool :=
  match lookupKey d k with
  | some (Json.str _) => true
  | _ => false

/-- ASCII lowercasing of one character, as pydantic's case-insensitive
matching uses it. -/
def asciiLower (c : Char) : Char :=
  if 'A' ≤ c ∧ c ≤ 'Z' then Char.ofNat (c.toNat + 32) else c

/-- Every character is a decimal digit. -/
def allDigits (l : List Char) : Bool :=
  l.all (fun c => c.isDigit)

/-- Decimal mantissa of a float string: `digits`, `digits.digits?` or
`.digits` — at least one digit, at most one dot. -/
def mantissaOk (l : List Char) : Bool :=
  match l.splitOn '.' with
  | [a] => !a.isEmpty && allDigits a
  | [a, b] => allDigits a && allDigits b && (!a.isEmpty || !b.isEmpty)
  | _ => false

/-- Exponent part of a float string: optional sign, then digits. -/
def expOk (l : List Char) : Bool :=
  match l with
  | '+' :: r => !r.isEmpty && allDigits r
  | '-' :: r => !r.isEmpty && allDigits r
  | r => !r.isEmpty && allDigits r

/-- Strip one optional leading sign. -/
def dropSign (l : List Char) : List Char :=
  match l with
  | '+' :: r => r
  | '-' :: r => r
  | r => r

/-- Pydantic's lax string-to-float coercion target: the string parses as a
float — surrounding whitespace, optional sign, then either
`inf`/`infinity`/`nan` (case-insensitive) or a decimal mantissa with an
optional `e`/`E` exponent.  Digit-group underscores (which Python's own
`float` accepts) are not accepted by pydantic-core's parser and are
rejected here too. -/
def numericString (s : String) : Bool :=
  let t := ((s.data.dropWhile Char.isWhitespace).reverse.dropWhile Char.isWhitespace).reverse
  let u := dropSign t
  let low := u.map asciiLower
  if low = "inf".data ∨ low = "infinity".data ∨ low = "nan".data then true
  else
    match u.splitOnP (fun c => c == 'e' || c == 'E') with
    | [m] => mantissaOk m
    | [m, e] => mantissaOk m && expOk e
    | _ => false

/-- Pydantic's lax string-to-bool coercion target: one of the recognised
boolean words, case-insensitive. -/
def boolString (s : String) : Bool :=
  ["true", "t", "yes", "y", "on", "1",
   "false", "f", "no", "n", "off", "0"].contains (String.mk (s.data.map asciiLower))

/-- Field check for the pydantic `float` field: a JSON number (int or
float), or — lax mode — a string that parses as a float.  A JSON boolean
is rejected (pydantic v2 does not coerce bool to float). -/
def fieldFloat (d : Dict) (k : String) : Bool :=
  match lookupKey d k with
  | some (Json.num _) => true
  | some (Json.str s) => numericString s
  | _ => false

/-- Field check for the pydantic `bool` field: a JSON boolean, or — lax
mode — a recognised boolean word, or the numbers `0` / `1`. -/
def fieldBool (d : Dict) (k : String) : Bool :=
  match lookupKey d k with
  | some (Json.bool _) => true
  | some (Json.str s) => boolString s
  | some (Json.num q) => decide (q = 0) || decide (q = 1)
  | _ => false

/-- The validation performed by `TicketClassification(**result)` at line 85
against the model declared at lines 27-34, in pydantic's default (lax)
mode: all seven declared fields must be present, `urgency` and `intent`
must be strings in their closed enumerations (lax mode does not coerce
into a `str`-valued enum), the three plain `str` fields must be JSON
strings (pydantic v2 does not coerce numbers to `str`), while `confidence`
also accepts numeric strings and `needs_human` also accepts boolean words
and the numbers `0` / `1` (the lax coercions).  As declared in the source,
the `confidence` field carries no range constraint —
`Field(description="Classification confidence 0-1")` is documentation
only, so any accepted number is in range.  Extra keys beyond the seven are
ignored (pydantic's default). -/
def validatePayload (d : Dict) : Bool :=
  fieldStrIn d "urgency" isUrgency &&
  fieldStrIn d "intent" isIntent &&
  fieldStr d "product_area" &&
  fieldStr d "language" &&
  fieldFloat d "confidence" &&
  fieldStr d "suggested_reply" &&
  fieldBool d "needs_human"

/-- Line 90, first disjunct: `result.get("urgency") == "critical"`.
Python `==` against the string `"critical"` is `False` for a missing key
(`.get` yields `None`) and for any non-string value. -/
def urgencyCritical (d : Dict) : Bool :=
  match lookupKey d "urgency" with
  | some (Json.str s) => s == "critical"
  | _ => false

/-- Line 90, second disjunct: `result.get("confidence", 1) < 0.7`.
A missing key defaults to `1`, so the test is `False`; a boolean value is
an int in Python (`False < 0.7` is `True`, `True < 0.7` is `False`); any
other non-numeric value makes Python raise `TypeError` when line 90
reaches the comparison — since lax validation lets a string-typed
`confidence` through, that can happen inside the try-block of a validated
attempt (only when `urgency` is not `"critical"`, or `or` short-circuits).
This embedding keeps the function total by mapping that branch to `false`;
a faithful rendering of an attempt whose body would raise there uses the
`ModelResponse.apiError` constructor instead (the `TypeError` is caught by
the generic handler at line 97), see `ModelResponse`. -/
def confidenceBelow (d : Dict) : Bool :=
  match lookupKey d "confidence" with
  | some (Json.num q) => decide (q < 0.7)
  | some (Json.bool b) => !b
  | _ => false

/-- Lines 89-92: the business-rule enforcement on the decoded result dict.
`if result.get("urgency") == "critical" or result.get("confidence", 1) < 0.7:
result["needs_human"] = True`. -/
def enforceRules (d : Dict) : Dict :=
  if urgencyCritical d || confidenceBelow d then setKey d "needs_human" (Json.bool true) else d

/-- Line 39 of the source. -/
def MAX_RETRIES : ℕ := 3

/-- Line 40 of the source.  Defined there and never referenced again. -/
def TIMEOUT_SECONDS : ℕ := 30

/-- Lines 42-46 of the source. -/
def SYSTEM_PROMPT : String :=
  "You are a B2B SaaS customer support classifier.\nAnalyze each ticket and classify it accurately.\nFor suggested_reply: write a professional, empathetic response.\nSet needs_human=true if: urgency is critical, confidence < 0.7,\nor the issue requires account-specific investigation."

/-- What one attempt of the try-block observes from the outside world,
an oracle value per attempt: either some exception raised by
`client.models.generate_content` / `response.text` (or by any other
non-(JSONDecodeError/ValidationError) source inside the try: the
`TypeError` raised by `TicketClassification(**result)` when the decoded
JSON is not an object, or the `TypeError` raised at line 90 when a
lax-validated string `confidence` meets `< 0.7` on a non-critical ticket)
— constructor `apiError`; or a response body that `json.loads` rejects —
constructor `badJson`; or the decoded JSON object together with the
measured wall-clock latency of the call, already in milliseconds as the
source computes it at line 87, for an attempt whose try-block runs to its
`return`/`ValidationError` without raising elsewhere — constructor
`payload`. -/
inductive ModelResponse where
  | apiError (msg : String)
  | badJson (msg : String) (latencyMs : ℕ)
  | payload (fields : Dict) (latencyMs : ℕ)

/-- The exceptions bound to `last_error`: `json.JSONDecodeError`,
`pydantic.ValidationError` (identified by the payload that failed
validation), and the generic `Exception` of the second handler. -/
inductive PyError where
  | jsonDecode (msg : String)
  | validation (fields : Dict)
  | api (msg : String)

/-- Which of the two `return` statements of `classify_ticket` produced the
value: the success return at line 93 carrying the result dict, or the
exhausted-retries return at line 104 carrying `last_error` (still `None`
only if the loop never ran, which cannot happen with `MAX_RETRIES = 3`). -/
inductive Outcome where
  | ok (d : Dict)
  | failed (lastError : Option PyError)

/-- Observable steps of one `classify_ticket` call: issuing the model call
of attempt `n`, and `time.sleep` of the given number of seconds. -/
inductive Event where
  | call (attempt : ℕ)
  | sleep (seconds : ℕ)
deriving DecidableEq

/-- Python `str(e)` for the exceptions held in `last_error`; the rendering
of a `ValidationError` is pydantic-internal and stands here as a fixed
marker string. -/
def errText : PyError → String
  | .jsonDecode m => m
  | .validation _ => "ValidationError"
  | .api m => m

/-- Python `str(last_error)`: `str(None)` is the string `"None"`. -/
def errTextOpt : Option PyError → String
  | none => "None"
  | some e => errText e

/-- The dict a caller receives: the success dict itself, or the terminal
failure dict `{"error": str(last_error), "needs_human": True}` of line 104. -/
def outcomeDict : Outcome → Dict
  | .ok d => d
  | .failed e => [("error", Json.str (errTextOpt e)), ("needs_human", Json.bool true)]

/-- The `for attempt in range(1, MAX_RETRIES + 1)` loop of lines 69-101,
with `fuel` the number of iterations left (`MAX_RETRIES + 1 - attempt`).
Per iteration: on a decoded payload that validates, attach `latency_ms`
(line 87), enforce the business rules (lines 89-92) and return (line 93);
on `JSONDecodeError` / `ValidationError` record `last_error` and go round
again with no delay (lines 94-96); on any other exception record
`last_error` and, when `attempt < MAX_RETRIES`, sleep `2 ** attempt`
seconds before the next attempt (lines 97-101).  When the loop ends, the
terminal failure value of line 104 is returned.  The second component
collects the observable events in order. -/
def classifyLoop (client : ℕ → ModelResponse) : ℕ → ℕ → Option PyError → Outcome × List Event
  | 0, _, lastError => (.failed lastError, [])
  | fuel + 1, attempt, _ =>
    match client attempt with
    | .payload fields latencyMs =>
      if validatePayload fields then
        (.ok (enforceRules (setKey fields "latency_ms" (Json.num latencyMs))), [.call attempt])
      else
        let rest := classifyLoop client fuel (attempt + 1) (some (.validation fields))
        (rest.1, .call attempt :: rest.2)
    | .badJson msg _ =>
      let rest := classifyLoop client fuel (attempt + 1) (some (.jsonDecode msg))
      (rest.1, .call attempt :: rest.2)
    | .apiError msg =>
      let rest := classifyLoop client fuel (attempt + 1) (some (.api msg))
      (rest.1, .call attempt :: ((if attempt < MAX_RETRIES then [.sleep (2 ^ attempt)] else []) ++ rest.2))

/-- The whole of `classify_ticket` (lines 57-104): Python's
`if not API_KEY: raise EnvironmentError("Missing GOOGLE_API_KEY")` guard
of lines 62-64 (`not API_KEY` is true for an unset variable and for the
empty string), then the retry loop.  The first component is the returned
dict's outcome, or `Except.error` for the raised `EnvironmentError`; the
second component is the list of performed model calls and sleeps. -/
def classifyTicket (apiKey : Option String) (client : ℕ → ModelResponse) :
    Except String Outcome × List Event :=
  match apiKey with
  | none => (.error "Missing GOOGLE_API_KEY", [])
  | some key =>
    if key = "" then (.error "Missing GOOGLE_API_KEY", [])
    else
      let r := classifyLoop client MAX_RETRIES 1 none
      (.ok r.1, r.2)

/-- How the try-block of one attempt ends, as the source's three-way
branch distinguishes it: success, the `(json.JSONDecodeError,
ValidationError)` handler, or the generic `Exception` handler. -/
inductive Kind where
  | success
  | schema
  | transport
deriving DecidableEq

/-- The branch taken at attempt `n` for the given oracle. -/
def attemptKind (client : ℕ → ModelResponse) (n : ℕ) : Kind :=
  match client n with
  | .apiError _ => .transport
  | .badJson _ _ => .schema
  | .payload d _ => if validatePayload d then .success else .schema

/-- The event list of the attempt loop, described directly from the branch
taken at each attempt (proved equal to the trace of `classifyLoop`). -/
def buildTrace (client : ℕ → ModelResponse) : ℕ → ℕ → List Event
  | 0, _ => []
  | fuel + 1, n =>
    match attemptKind client n with
    | .success => [.call n]
    | .schema => .call n :: buildTrace client fuel (n + 1)
    | .transport =>
      .call n :: ((if n < MAX_RETRIES then [.sleep (2 ^ n)] else []) ++ buildTrace client fuel (n + 1))

/-- Number of model calls in an event list. -/
def countCalls (t : List Event) : ℕ :=
  (t.filter fun e => match e with | .call _ => true | _ => false).length

/-- An attempt that does not reach the `return` at line 93: a raised
exception, undecodable output, or a decoded payload the schema rejects. -/
def responseFails : ModelResponse → Bool
  | .apiError _ => true
  | .badJson _ _ => true
  | .payload d _ => !(validatePayload d)

/-- The `last_error` recorded for a failing attempt. -/
def errOf : ModelResponse → PyError
  | .apiError m => .api m
  | .badJson m _ => .jsonDecode m
  | .payload d _ => .validation d

/-- Marker for the `response_schema=TicketClassification` argument. -/
inductive SchemaRef where
  | ticketClassification

/-- The `http_options` of the google-genai SDK, the only place a request
deadline can be set; the code never constructs one, so the field that
could carry the timeout stays at the SDK default. -/
structure HttpOptions where
  timeout : Option ℕ

/-- The `types.GenerateContentConfig(...)` record of lines 75-80 with the
SDK's remaining configurable field relevant here: `http_options`, which the
source leaves unset (`none`). -/
structure GenerateContentConfig where
  system_instruction : Option String
  response_mime_type : Option String
  response_schema : Option SchemaRef
  temperature : Option ℚ
  http_options : Option HttpOptions

/-- The config object the source passes to every `generate_content` call
(lines 75-80): system instruction, JSON mime type, the response schema,
temperature 0.2 — and nothing else; in particular no `http_options`. -/
def requestConfig : GenerateContentConfig :=
  ⟨some SYSTEM_PROMPT, some "application/json", some .ticketClassification, some 0.2, none⟩

/-- The request deadline a `GenerateContentConfig` carries, if any. -/
def configuredTimeout (c : GenerateContentConfig) : Option ℕ :=
  match c.http_options with
  | some h => h.timeout
  | none => none

/-- A contiguous run inside an event list. -/
def SegmentOf (u t : List Event) : Prop :=
  ∃ p q, t = p ++ u ++ q

/-- The Schema Validator acceptance condition as the spec's section 4.1
rules describe it, amended by the lax coercions the code's pydantic
validation actually performs: all seven required fields present,
`urgency` / `intent` strings belonging to their closed enumerations, the
three plain text fields strings, `confidence` a number or a string
parsing as a float, `needs_human` a boolean, a recognised boolean word, or
the number `0` / `1`.  Stated independently of `validatePayload` for
comparison with it. -/
def SpecAcceptsLax (d : Dict) : Prop :=
  (∃ s, lookupKey d "urgency" = some (Json.str s) ∧ s ∈ ["critical", "high", "medium", "low"]) ∧
  (∃ s, lookupKey d "intent" = some (Json.str s) ∧
      s ∈ ["complaint", "question", "request", "feedback", "bug_report"]) ∧
  (∃ s, lookupKey d "product_area" = some (Json.str s)) ∧
  (∃ s, lookupKey d "language" = some (Json.str s)) ∧
  ((∃ q, lookupKey d "confidence" = some (Json.num q)) ∨
    (∃ s, lookupKey d "confidence" = some (Json.str s) ∧ numericString s = true)) ∧
  (∃ s, lookupKey d "suggested_reply" = some (Json.str s)) ∧
  ((∃ b, lookupKey d "needs_human" = some (Json.bool b)) ∨
    (∃ s, lookupKey d "needs_human" = some (Json.str s) ∧ boolString s = true) ∨
    (∃ q, lookupKey d "needs_human" = some (Json.num q) ∧ (q = 0 ∨ q = 1)))

/-! Helper lemmas about the dict operations, the business rule and the
retry loop, shared by the claim theorems. -/

theorem lookupKey_setKey_self (d : Dict) (k : String) (v : Json) :
    lookupKey (setKey d k v) k = some v := by
  induction d with
  | nil => simp [setKey, lookupKey]
  | cons hd tl ih =>
    obtain ⟨k0, v0⟩ := hd
    by_cases h : k0 = k
    · simp [setKey, lookupKey, h]
    · simp [setKey, lookupKey, h, ih]

theorem lookupKey_setKey_ne (d : Dict) (k k' : String) (v : Json) (h : k' ≠ k) :
    lookupKey (setKey d k v) k' = lookupKey d k' := by
  have h' : k ≠ k' := Ne.symm h
  induction d with
  | nil => simp [setKey, lookupKey, h']
  | cons hd tl ih =>
    obtain ⟨k0, v0⟩ := hd
    by_cases h0 : k0 = k
    · subst h0
      simp [setKey, lookupKey, h']
    · simp [setKey, lookupKey, h0, ih]

theorem setKey_setKey_same (d : Dict) (k : String) (v : Json) :
    setKey (setKey d k v) k v = setKey d k v := by
  induction d with
  | nil => simp [setKey]
  | cons hd tl ih =>
    obtain ⟨k0, v0⟩ := hd
    by_cases h : k0 = k
    · simp [setKey, h]
    · simp [setKey, h, ih]

theorem urgencyCritical_setKey_nh (d : Dict) (v : Json) :
    urgencyCritical (setKey d "needs_human" v) = urgencyCritical d := by
  unfold urgencyCritical
  rw [lookupKey_setKey_ne _ _ _ _ (by decide)]

theorem confidenceBelow_setKey_nh (d : Dict) (v : Json) :
    confidenceBelow (setKey d "needs_human" v) = confidenceBelow d := by
  unfold confidenceBelow
  rw [lookupKey_setKey_ne _ _ _ _ (by decide)]

theorem enforceRules_lookup_ne (d : Dict) (k : String) (h : k ≠ "needs_human") :
    lookupKey (enforceRules d) k = lookupKey d k := by
  unfold enforceRules
  split
  · exact lookupKey_setKey_ne _ _ _ _ h
  · rfl

theorem enforceRules_of_cond_false (d : Dict)
    (h : (urgencyCritical d || confidenceBelow d) = false) : enforceRules d = d := by
  simp [enforceRules, h]

theorem enforceRules_needs_human (d : Dict)
    (h : lookupKey (enforceRules d) "urgency" = some (Json.str "critical") ∨
      ∃ q, lookupKey (enforceRules d) "confidence" = some (Json.num q) ∧ q < 0.7) :
    lookupKey (enforceRules d) "needs_human" = some (Json.bool true) := by
  rcases Bool.eq_false_or_eq_true (urgencyCritical d || confidenceBelow d) with hc | hc
  swap
  · exfalso
    rw [enforceRules_of_cond_false d hc] at h
    rw [Bool.or_eq_false_iff] at hc
    rcases h with hu | ⟨q, hq, hlt⟩
    · have : urgencyCritical d = true := by
        unfold urgencyCritical
        rw [hu]
        simp
      rw [hc.1] at this
      exact Bool.false_ne_true this
    · have : confidenceBelow d = true := by
        unfold confidenceBelow
        rw [hq]
        exact decide_eq_true hlt
      rw [hc.2] at this
      exact Bool.false_ne_true this
  · unfold enforceRules
    rw [if_pos hc]
    exact lookupKey_setKey_self _ _ _

theorem classifyLoop_ok (client : ℕ → ModelResponse) :
    ∀ (fuel attempt : ℕ) (last : Option PyError) (d : Dict) (t : List Event),
    classifyLoop client fuel attempt last = (Outcome.ok d, t) →
    ∃ n fields lat, client n = ModelResponse.payload fields lat ∧
      validatePayload fields = true ∧
      d = enforceRules (setKey fields "latency_ms" (Json.num lat)) := by
  intro fuel
  induction fuel with
  | zero =>
    intro attempt last d t h
    simp [classifyLoop] at h
  | succ fuel ih =>
    intro attempt last d t h
    rcases hc : client attempt with m | ⟨m, lat⟩ | ⟨fields, lat⟩ <;>
      simp only [classifyLoop, hc, Prod.mk.injEq] at h
    · exact ih (attempt + 1) (some (.api m)) d
        (classifyLoop client fuel (attempt + 1) (some (.api m))).2 (by rw [← h.1])
    · exact ih (attempt + 1) (some (.jsonDecode m)) d
        (classifyLoop client fuel (attempt + 1) (some (.jsonDecode m))).2 (by rw [← h.1])
    · by_cases hv : validatePayload fields = true
      · rw [if_pos hv] at h
        rw [Prod.mk.injEq] at h
        refine ⟨attempt, fields, lat, hc, hv, ?_⟩
        exact (Outcome.ok.inj h.1).symm
      · rw [if_neg hv] at h
        rw [Prod.mk.injEq] at h
        exact ih (attempt + 1) (some (.validation fields)) d
          (classifyLoop client fuel (attempt + 1) (some (.validation fields))).2 (by rw [← h.1])

theorem countCalls_nil : countCalls [] = 0 := rfl

theorem countCalls_cons_call (n : ℕ) (t : List Event) :
    countCalls (Event.call n :: t) = countCalls t + 1 := by
  simp [countCalls, List.filter_cons]

theorem countCalls_cons_sleep (s : ℕ) (t : List Event) :
    countCalls (Event.sleep s :: t) = countCalls t := by
  simp [countCalls, List.filter_cons]

theorem countCalls_append (a b : List Event) :
    countCalls (a ++ b) = countCalls a + countCalls b := by
  simp [countCalls, List.filter_append]

theorem countCalls_sleepIf (c : Prop) [Decidable c] (s : ℕ) (t : List Event) :
    countCalls ((if c then [Event.sleep s] else []) ++ t) = countCalls t := by
  split
  · rw [List.singleton_append, countCalls_cons_sleep]
  · rw [List.nil_append]

theorem classifyLoop_fail (client : ℕ → ModelResponse) :
    ∀ (fuel attempt : ℕ) (last : Option PyError),
    1 ≤ fuel →
    (∀ n, attempt ≤ n → n < attempt + fuel → responseFails (client n) = true) →
    (classifyLoop client fuel attempt last).1
        = Outcome.failed (some (errOf (client (attempt + fuel - 1)))) ∧
    countCalls (classifyLoop client fuel attempt last).2 = fuel := by
  intro fuel
  induction fuel with
  | zero => intro attempt last h hfail; exact absurd h (by omega)
  | succ fuel ih =>
    intro attempt last _ hfail
    have hf := hfail attempt (Nat.le_refl _) (by omega)
    rcases hc : client attempt with m | ⟨m, lat⟩ | ⟨fields, lat⟩ <;> rw [hc] at hf
    · simp only [classifyLoop, hc]
      by_cases hfz : fuel = 0
      · subst hfz
        constructor
        · simp [classifyLoop, errOf, hc]
        · rw [countCalls_cons_call, countCalls_sleepIf]
          simp [classifyLoop, countCalls_nil]
      · obtain ⟨ho, hcnt⟩ := ih (attempt + 1) (some (.api m)) (Nat.one_le_iff_ne_zero.mpr hfz)
          (fun n h1 h2 => hfail n (by omega) (by omega))
        constructor
        · rw [show attempt + (fuel + 1) - 1 = attempt + 1 + fuel - 1 by omega]
          exact ho
        · rw [countCalls_cons_call, countCalls_sleepIf, hcnt]
    · simp only [classifyLoop, hc]
      by_cases hfz : fuel = 0
      · subst hfz
        constructor
        · simp [classifyLoop, errOf, hc]
        · rw [countCalls_cons_call]
          simp [classifyLoop, countCalls_nil]
      · obtain ⟨ho, hcnt⟩ := ih (attempt + 1) (some (.jsonDecode m))
          (Nat.one_le_iff_ne_zero.mpr hfz)
          (fun n h1 h2 => hfail n (by omega) (by omega))
        constructor
        · rw [show attempt + (fuel + 1) - 1 = attempt + 1 + fuel - 1 by omega]
          exact ho
        · rw [countCalls_cons_call, hcnt]
    · have hv : validatePayload fields = false := by
        simpa [responseFails] using hf
      simp only [classifyLoop, hc, hv, Bool.false_eq_true, if_false]
      by_cases hfz : fuel = 0
      · subst hfz
        constructor
        · simp [classifyLoop, errOf, hc]
        · rw [countCalls_cons_call]
          simp [classifyLoop, countCalls_nil]
      · obtain ⟨ho, hcnt⟩ := ih (attempt + 1) (some (.validation fields))
          (Nat.one_le_iff_ne_zero.mpr hfz)
          (fun n h1 h2 => hfail n (by omega) (by omega))
        constructor
        · rw [show attempt + (fuel + 1) - 1 = attempt + 1 + fuel - 1 by omega]
          exact ho
        · rw [countCalls_cons_call, hcnt]

theorem classifyLoop_trace (client : ℕ → ModelResponse) :
    ∀ (fuel attempt : ℕ) (last : Option PyError),
    (classifyLoop client fuel attempt last).2 = buildTrace client fuel attempt := by
  intro fuel
  induction fuel with
  | zero => intro attempt last; rfl
  | succ fuel ih =>
    intro attempt last
    unfold classifyLoop buildTrace attemptKind
    rcases hc : client attempt with m | ⟨m, lat⟩ | ⟨fields, lat⟩
    · simp [ih]
    · simp [ih]
    · by_cases hv : validatePayload fields
      · simp [hv]
      · simp [hv, ih]

theorem buildTrace_one_three (client : ℕ → ModelResponse) :
    buildTrace client 1 3 = [Event.call 3] := by
  cases hk : attemptKind client 3 <;> simp [buildTrace, hk, MAX_RETRIES]

theorem fieldStrIn_iff (d : Dict) (k : String) (allowed : String → Bool) :
    fieldStrIn d k allowed = true ↔
      ∃ s, lookupKey d k = some (Json.str s) ∧ allowed s = true := by
  unfold fieldStrIn
  cases hl : lookupKey d k with
  | none => simp
  | some v => cases v <;> simp

theorem fieldStr_iff (d : Dict) (k : String) :
    fieldStr d k = true ↔ ∃ s, lookupKey d k = some (Json.str s) := by
  unfold fieldStr
  cases hl : lookupKey d k with
  | none => simp
  | some v => cases v <;> simp

theorem fieldFloat_iff (d : Dict) (k : String) :
    fieldFloat d k = true ↔
      (∃ q, lookupKey d k = some (Json.num q)) ∨
      (∃ s, lookupKey d k = some (Json.str s) ∧ numericString s = true) := by
  unfold fieldFloat
  cases hl : lookupKey d k with
  | none => simp
  | some v => cases v <;> simp

theorem fieldBool_iff (d : Dict) (k : String) :
    fieldBool d k = true ↔
      (∃ b, lookupKey d k = some (Json.bool b)) ∨
      (∃ s, lookupKey d k = some (Json.str s) ∧ boolString s = true) ∨
      (∃ q, lookupKey d k = some (Json.num q) ∧ (q = 0 ∨ q = 1)) := by
  unfold fieldBool
  cases hl : lookupKey d k with
  | none => simp
  | some v => cases v <;> simp

theorem isUrgency_iff (s : String) :
    isUrgency s = true ↔ s ∈ ["critical", "high", "medium", "low"] := by
  simp [isUrgency, or_assoc]

theorem isIntent_iff (s : String) :
    isIntent s = true ↔ s ∈ ["complaint", "question", "request", "feedback", "bug_report"] := by
  simp [isIntent, or_assoc]

/-! The claim theorems. -/

/-- Sample payload for exercising the invariant: the model reports critical
urgency with high confidence yet claims no human is needed (the spec's
scenario 6). -/
def critSample : Dict :=
  [("urgency", Json.str "critical"), ("intent", Json.str "complaint"),
   ("product_area", Json.str "technical"), ("language", Json.str "en"),
   ("confidence", Json.num 0.95), ("suggested_reply", Json.str "We are on it."),
   ("needs_human", Json.bool false)]

/-- C1: for every outcome `classify_ticket` returns (never mind the api key
or the client behaviour), if the returned dict has `urgency == "critical"`
or a `confidence` number below 0.7 then its `needs_human` is `True`,
regardless of the `needs_human` the model put in the payload; and every
exhausted-retries failure dict carries `needs_human == True` as well. -/
theorem pipeline_needs_human_invariant (apiKey : Option String)
    (client : ℕ → ModelResponse) (o : Outcome) (t : List Event)
    (h : classifyTicket apiKey client = (Except.ok o, t)) :
    ((lookupKey (outcomeDict o) "urgency" = some (Json.str "critical") ∨
        ∃ q, lookupKey (outcomeDict o) "confidence" = some (Json.num q) ∧ q < 0.7) →
      lookupKey (outcomeDict o) "needs_human" = some (Json.bool true)) ∧
    (∀ e, o = Outcome.failed e →
      lookupKey (outcomeDict o) "needs_human" = some (Json.bool true)) := by
  rcases apiKey with _ | key
  · exfalso
    simp [classifyTicket] at h
  · by_cases hk : key = ""
    · exfalso
      simp [classifyTicket, hk] at h
    · simp only [classifyTicket] at h
      rw [if_neg hk] at h
      rw [Prod.mk.injEq] at h
      have h1 : (classifyLoop client MAX_RETRIES 1 none).1 = o := Except.ok.inj h.1
      have h2 := h.2
      cases o with
      | failed e =>
        constructor
        · intro hcond
          rcases hcond with hu | ⟨q, hq, _⟩
          · simp [outcomeDict, lookupKey] at hu
          · simp [outcomeDict, lookupKey] at hq
        · intro e' _
          simp [outcomeDict, lookupKey]
      | ok d =>
        refine ⟨?_, fun e he => absurd he (by simp)⟩
        have h' : classifyLoop client MAX_RETRIES 1 none = (Outcome.ok d, t) := by
          rw [← h1, ← h2]
        obtain ⟨n, fields, lat, hcn, hvf, hd⟩ := classifyLoop_ok client _ _ _ _ _ h'
        subst hd
        intro hcond
        exact enforceRules_needs_human _ hcond

/-- Witness for C1: a mocked model answering `urgency: critical,
confidence: 0.95, needs_human: false` still comes back with
`needs_human == True`. -/
theorem pipeline_needs_human_invariant_witness :
    lookupKey (outcomeDict (Outcome.ok
        (enforceRules (setKey critSample "latency_ms" (Json.num 120)))))
      "needs_human" = some (Json.bool true) :=
  (pipeline_needs_human_invariant (some "key")
    (fun _ => ModelResponse.payload critSample 120)
    (Outcome.ok (enforceRules (setKey critSample "latency_ms" (Json.num 120))))
    [Event.call 1] rfl).1 (Or.inl rfl)

/-- C2: when every attempt fails (any mix of raised exceptions, undecodable
bodies and schema-rejected payloads), `classify_ticket` performs exactly
`MAX_RETRIES = 3` model calls, returns (does not raise) the terminal
failure outcome carrying the error of the last attempt, and that failure
dict has `needs_human == True`. -/
theorem retry_exhaustion (key : String) (hk : key ≠ "") (client : ℕ → ModelResponse)
    (hfail : ∀ n, 1 ≤ n → n ≤ MAX_RETRIES → responseFails (client n) = true) :
    ∃ t, classifyTicket (some key) client
        = (Except.ok (Outcome.failed (some (errOf (client MAX_RETRIES)))), t) ∧
      countCalls t = MAX_RETRIES ∧
      lookupKey (outcomeDict (Outcome.failed (some (errOf (client MAX_RETRIES)))))
        "needs_human" = some (Json.bool true) := by
  obtain ⟨ho, hcnt⟩ := classifyLoop_fail client MAX_RETRIES 1 none (by decide)
    (fun n h1 h2 => hfail n h1 (by omega))
  refine ⟨(classifyLoop client MAX_RETRIES 1 none).2, ?_, hcnt, rfl⟩
  simp only [classifyTicket]
  rw [if_neg hk]
  rw [show (1 : ℕ) + MAX_RETRIES - 1 = MAX_RETRIES from by omega] at ho
  rw [ho]

/-- Witness for C2: a client that raises on every attempt. -/
theorem retry_exhaustion_witness :
    ∃ t, classifyTicket (some "key") (fun _ => ModelResponse.apiError "service unavailable")
        = (Except.ok (Outcome.failed (some (PyError.api "service unavailable"))), t) ∧
      countCalls t = MAX_RETRIES ∧
      lookupKey (outcomeDict (Outcome.failed (some (PyError.api "service unavailable"))))
        "needs_human" = some (Json.bool true) :=
  retry_exhaustion "key" (by decide) _ (fun _ _ _ => rfl)

/-- Sample payload whose `confidence` is `1.5`, outside `[0, 1]`, and whose
other six fields are unobjectionable. -/
def overRangeSample : Dict :=
  [("urgency", Json.str "high"), ("intent", Json.str "question"),
   ("product_area", Json.str "billing"), ("language", Json.str "en"),
   ("confidence", Json.num 1.5), ("suggested_reply", Json.str "Sure."),
   ("needs_human", Json.bool false)]

/-- C3 (refuting evaluation): the `confidence` range is NOT validated.
`TicketClassification` declares `confidence: float = Field(description=...)`
with no `ge`/`le` bound, so the payload with `confidence = 1.5` passes
validation and the pipeline returns it as a first-attempt success — the
business rule does not touch it either (`1.5 < 0.7` is false), so even
`needs_human` stays `False`. -/
theorem confidence_range_unchecked :
    validatePayload overRangeSample = true ∧
    classifyTicket (some "key") (fun _ => ModelResponse.payload overRangeSample 42)
      = (Except.ok (Outcome.ok (setKey overRangeSample "latency_ms" (Json.num 42))),
          [Event.call 1]) := by
  constructor
  · rfl
  · have hu : urgencyCritical (setKey overRangeSample "latency_ms" (Json.num 42)) = false := rfl
    have hcb : confidenceBelow (setKey overRangeSample "latency_ms" (Json.num 42)) = false := by
      have hl : lookupKey (setKey overRangeSample "latency_ms" (Json.num 42)) "confidence"
          = some (Json.num 1.5) := rfl
      simp only [confidenceBelow, hl]
      norm_num
    have h0 : classifyTicket (some "key") (fun _ => ModelResponse.payload overRangeSample 42)
        = (Except.ok (Outcome.ok
            (enforceRules (setKey overRangeSample "latency_ms" (Json.num 42)))),
          [Event.call 1]) := rfl
    rw [h0, enforceRules_of_cond_false _ (by rw [hu, hcb]; rfl)]

/-- Sample payload with two mistyped but lax-coercible fields:
`confidence` is the string `"0.55"` and `needs_human` the string `"true"`. -/
def coercedSample : Dict :=
  [("urgency", Json.str "high"), ("intent", Json.str "question"),
   ("product_area", Json.str "billing"), ("language", Json.str "en"),
   ("confidence", Json.str "0.55"), ("suggested_reply", Json.str "Ok."),
   ("needs_human", Json.str "true")]

/-- C4 (counterexample): pydantic's default mode coerces, so "a mistyped
field is a SchemaError, never a silent default" fails — the validator
accepts a payload whose `confidence` field is the string `"0.55"` (not a
number) and whose `needs_human` field is the string `"true"` (not a
boolean). -/
theorem validator_accepts_mistyped :
    validatePayload coercedSample = true ∧
    lookupKey coercedSample "confidence" = some (Json.str "0.55") ∧
    lookupKey coercedSample "needs_human" = some (Json.str "true") :=
  ⟨rfl, rfl, rfl⟩

/-- C4 (amended): the pydantic validation accepts a payload exactly when
all seven declared fields are present, `urgency` / `intent` are strings of
their closed enumerations, `product_area` / `language` / `suggested_reply`
are strings, and `confidence` / `needs_human` have their declared type up
to the lax coercions (numeric strings for `float`; boolean words and
`0` / `1` for `bool`).  A missing field, an out-of-enumeration `urgency`
or `intent`, or a non-coercible value is a `ValidationError`, never a
silent default. -/
theorem validator_accepts_iff_lax (d : Dict) :
    validatePayload d = true ↔ SpecAcceptsLax d := by
  unfold validatePayload SpecAcceptsLax
  simp only [Bool.and_eq_true, fieldStrIn_iff, fieldStr_iff, fieldFloat_iff, fieldBool_iff,
    isUrgency_iff, isIntent_iff, and_assoc]

/-- Sample payload with all seven fields well-typed and in range. -/
def validSample : Dict :=
  [("urgency", Json.str "high"), ("intent", Json.str "question"),
   ("product_area", Json.str "billing"), ("language", Json.str "es"),
   ("confidence", Json.num 0.5), ("suggested_reply", Json.str "Claro."),
   ("needs_human", Json.bool true)]

/-- Witness for C4's amended claim: the acceptance direction evaluated on
the payload with string-typed `confidence` and `needs_human`, accepted
through the coercion disjuncts. -/
theorem validator_accepts_iff_lax_witness : validatePayload coercedSample = true :=
  (validator_accepts_iff_lax coercedSample).mpr
    ⟨⟨"high", rfl, by decide⟩, ⟨"question", rfl, by decide⟩, ⟨"billing", rfl⟩,
      ⟨"en", rfl⟩, Or.inr ⟨"0.55", rfl, rfl⟩, ⟨"Ok.", rfl⟩,
      Or.inr (Or.inl ⟨"true", rfl, rfl⟩)⟩

theorem buildTrace_succ (client : ℕ → ModelResponse) (fuel n : ℕ) :
    buildTrace client (fuel + 1) n =
      match attemptKind client n with
      | Kind.success => [Event.call n]
      | Kind.schema => Event.call n :: buildTrace client fuel (n + 1)
      | Kind.transport =>
        Event.call n ::
          ((if n < MAX_RETRIES then [Event.sleep (2 ^ n)] else []) ++
            buildTrace client fuel (n + 1)) := rfl

/-- C5: in the event trace of any `classify_ticket` call, an attempt
`n < MAX_RETRIES` ending in the generic exception handler is immediately
followed by `time.sleep(2 ** n)` and then attempt `n + 1`; an attempt
ending in the `JSONDecodeError` / `ValidationError` handler is immediately
followed by attempt `n + 1` with no delay; and nothing — in particular no
sleep — follows the final attempt.  Each attempt occurs at most once. -/
theorem backoff_schedule (key : String) (client : ℕ → ModelResponse)
    (o : Outcome) (t : List Event)
    (h : classifyTicket (some key) client = (Except.ok o, t)) :
    ∀ n, Event.call n ∈ t →
      ((attemptKind client n = Kind.transport ∧ n < MAX_RETRIES) →
        SegmentOf [Event.call n, Event.sleep (2 ^ n), Event.call (n + 1)] t) ∧
      ((attemptKind client n = Kind.schema ∧ n < MAX_RETRIES) →
        SegmentOf [Event.call n, Event.call (n + 1)] t) ∧
      (n = MAX_RETRIES → t.getLast? = some (Event.call MAX_RETRIES)) ∧
      t.count (Event.call n) = 1 := by
  by_cases hk : key = ""
  · exfalso
    simp [classifyTicket, hk] at h
  · simp only [classifyTicket] at h
    rw [if_neg hk] at h
    rw [Prod.mk.injEq] at h
    have ht : t = buildTrace client MAX_RETRIES 1 := by
      rw [← h.2, classifyLoop_trace]
    subst ht
    have e1 : buildTrace client MAX_RETRIES 1
        = match attemptKind client 1 with
          | Kind.success => [Event.call 1]
          | Kind.schema => Event.call 1 :: buildTrace client 2 2
          | Kind.transport =>
            Event.call 1 ::
              ((if 1 < MAX_RETRIES then [Event.sleep (2 ^ 1)] else []) ++
                buildTrace client 2 2) :=
      buildTrace_succ client 2 1
    have e2 : buildTrace client 2 2
        = match attemptKind client 2 with
          | Kind.success => [Event.call 2]
          | Kind.schema => Event.call 2 :: buildTrace client 1 3
          | Kind.transport =>
            Event.call 2 ::
              ((if 2 < MAX_RETRIES then [Event.sleep (2 ^ 2)] else []) ++
                buildTrace client 1 3) :=
      buildTrace_succ client 1 2
    rw [buildTrace_one_three] at e2
    cases h1 : attemptKind client 1 with
    | success =>
      have et : buildTrace client MAX_RETRIES 1 = [Event.call 1] := by
        rw [e1, h1]
      rw [et]
      intro n hmem
      simp at hmem
      subst hmem
      refine ⟨?_, ?_, ?_, by decide⟩
      · rintro ⟨hkind, _⟩
        simp [h1] at hkind
      · rintro ⟨hkind, _⟩
        simp [h1] at hkind
      · intro h3
        exact absurd h3 (by decide)
    | schema =>
      cases h2 : attemptKind client 2 with
      | success =>
        have et : buildTrace client MAX_RETRIES 1 = [Event.call 1, Event.call 2] := by
          rw [e1, h1, e2, h2]
        rw [et]
        intro n hmem
        simp at hmem
        rcases hmem with rfl | rfl
        · refine ⟨?_, ?_, ?_, by decide⟩
          · rintro ⟨hkind, _⟩
            simp [h1] at hkind
          · intro _
            exact ⟨[], [], rfl⟩
          · intro h3
            exact absurd h3 (by decide)
        · refine ⟨?_, ?_, ?_, by decide⟩
          · rintro ⟨hkind, _⟩
            simp [h2] at hkind
          · rintro ⟨hkind, _⟩
            simp [h2] at hkind
          · intro h3
            exact absurd h3 (by decide)
      | schema =>
        have et : buildTrace client MAX_RETRIES 1
            = [Event.call 1, Event.call 2, Event.call 3] := by
          rw [e1, h1, e2, h2]
        rw [et]
        intro n hmem
        simp at hmem
        rcases hmem with rfl | rfl | rfl
        · refine ⟨?_, ?_, ?_, by decide⟩
          · rintro ⟨hkind, _⟩
            simp [h1] at hkind
          · intro _
            exact ⟨[], [Event.call 3], rfl⟩
          · intro h3
            exact absurd h3 (by decide)
        · refine ⟨?_, ?_, ?_, by decide⟩
          · rintro ⟨hkind, _⟩
            simp [h2] at hkind
          · intro _
            exact ⟨[Event.call 1], [], rfl⟩
          · intro h3
            exact absurd h3 (by decide)
        · refine ⟨?_, ?_, ?_, by decide⟩
          · rintro ⟨_, hlt⟩
            exact absurd hlt (by decide)
          · rintro ⟨_, hlt⟩
            exact absurd hlt (by decide)
          · intro _
            rfl
      | transport =>
        have et : buildTrace client MAX_RETRIES 1
            = [Event.call 1, Event.call 2, Event.sleep 4, Event.call 3] := by
          rw [e1, h1, e2, h2]
          rfl
        rw [et]
        intro n hmem
        simp at hmem
        rcases hmem with rfl | rfl | rfl
        · refine ⟨?_, ?_, ?_, by decide⟩
          · rintro ⟨hkind, _⟩
            simp [h1] at hkind
          · intro _
            exact ⟨[], [Event.sleep 4, Event.call 3], rfl⟩
          · intro h3
            exact absurd h3 (by decide)
        · refine ⟨?_, ?_, ?_, by decide⟩
          · intro _
            exact ⟨[Event.call 1], [], rfl⟩
          · rintro ⟨hkind, _⟩
            simp [h2] at hkind
          · intro h3
            exact absurd h3 (by decide)
        · refine ⟨?_, ?_, ?_, by decide⟩
          · rintro ⟨_, hlt⟩
            exact absurd hlt (by decide)
          · rintro ⟨_, hlt⟩
            exact absurd hlt (by decide)
          · intro _
            rfl
    | transport =>
      cases h2 : attemptKind client 2 with
      | success =>
        have et : buildTrace client MAX_RETRIES 1
            = [Event.call 1, Event.sleep 2, Event.call 2] := by
          rw [e1, h1, e2, h2]
          rfl
        rw [et]
        intro n hmem
        simp at hmem
        rcases hmem with rfl | rfl
        · refine ⟨?_, ?_, ?_, by decide⟩
          · intro _
            exact ⟨[], [], rfl⟩
          · rintro ⟨hkind, _⟩
            simp [h1] at hkind
          · intro h3
            exact absurd h3 (by decide)
        · refine ⟨?_, ?_, ?_, by decide⟩
          · rintro ⟨hkind, _⟩
            simp [h2] at hkind
          · rintro ⟨hkind, _⟩
            simp [h2] at hkind
          · intro h3
            exact absurd h3 (by decide)
      | schema =>
        have et : buildTrace client MAX_RETRIES 1
            = [Event.call 1, Event.sleep 2, Event.call 2, Event.call 3] := by
          rw [e1, h1, e2, h2]
          rfl
        rw [et]
        intro n hmem
        simp at hmem
        rcases hmem with rfl | rfl | rfl
        · refine ⟨?_, ?_, ?_, by decide⟩
          · intro _
            exact ⟨[], [Event.call 3], rfl⟩
          · rintro ⟨hkind, _⟩
            simp [h1] at hkind
          · intro h3
            exact absurd h3 (by decide)
        · refine ⟨?_, ?_, ?_, by decide⟩
          · rintro ⟨hkind, _⟩
            simp [h2] at hkind
          · intro _
            exact ⟨[Event.call 1, Event.sleep 2], [], rfl⟩
          · intro h3
            exact absurd h3 (by decide)
        · refine ⟨?_, ?_, ?_, by decide⟩
          · rintro ⟨_, hlt⟩
            exact absurd hlt (by decide)
          · rintro ⟨_, hlt⟩
            exact absurd hlt (by decide)
          · intro _
            rfl
      | transport =>
        have et : buildTrace client MAX_RETRIES 1
            = [Event.call 1, Event.sleep 2, Event.call 2, Event.sleep 4, Event.call 3] := by
          rw [e1, h1, e2, h2]
          rfl
        rw [et]
        intro n hmem
        simp at hmem
        rcases hmem with rfl | rfl | rfl
        · refine ⟨?_, ?_, ?_, by decide⟩
          · intro _
            exact ⟨[], [Event.sleep 4, Event.call 3], rfl⟩
          · rintro ⟨hkind, _⟩
            simp [h1] at hkind
          · intro h3
            exact absurd h3 (by decide)
        · refine ⟨?_, ?_, ?_, by decide⟩
          · intro _
            exact ⟨[Event.call 1, Event.sleep 2], [], rfl⟩
          · rintro ⟨hkind, _⟩
            simp [h2] at hkind
          · intro h3
            exact absurd h3 (by decide)
        · refine ⟨?_, ?_, ?_, by decide⟩
          · rintro ⟨_, hlt⟩
            exact absurd hlt (by decide)
          · rintro ⟨_, hlt⟩
            exact absurd hlt (by decide)
          · intro _
            rfl

/-- Witness for C5: a client whose every attempt raises: the trace is
call 1, sleep 2, call 2, sleep 4, call 3, and the first backoff segment is
exhibited. -/
theorem backoff_schedule_witness :
    SegmentOf [Event.call 1, Event.sleep (2 ^ 1), Event.call 2]
      [Event.call 1, Event.sleep 2, Event.call 2, Event.sleep 4, Event.call 3] :=
  (backoff_schedule "key" (fun _ => ModelResponse.apiError "down")
    (Outcome.failed (some (PyError.api "down")))
    [Event.call 1, Event.sleep 2, Event.call 2, Event.sleep 4, Event.call 3]
    rfl 1 (by decide)).1 ⟨rfl, by decide⟩

/-- C6 (refuting evaluation): `TIMEOUT_SECONDS = 30` is defined but the
`GenerateContentConfig` the code passes to every `generate_content` call
carries no deadline at all — the constant is never wired into the request,
so nothing bounds a hung upstream call. -/
theorem timeout_never_configured :
    TIMEOUT_SECONDS = 30 ∧ configuredTimeout requestConfig = none :=
  ⟨rfl, rfl⟩

/-- C7 (counterexample): the missing-credential error is produced by the
`classify_ticket` call itself — the guard at lines 62-64 runs inside every
call, refuting "surfaced at startup ... rather than being detected inside
each classify call". -/
theorem missing_key_raised_inside_classify :
    (classifyTicket none (fun _ => ModelResponse.apiError "never reached")).1
      = Except.error "Missing GOOGLE_API_KEY" :=
  rfl

/-- C7 (amended): an absent or empty credential makes each
`classify_ticket` call raise `EnvironmentError` immediately — before any
model call, sleep, or retry (empty trace) — rather than returning a
failure dict; the startup-time check exists only in the `__main__` block. -/
theorem missing_key_fails_fast (apiKey : Option String) (client : ℕ → ModelResponse)
    (h : apiKey = none ∨ apiKey = some "") :
    classifyTicket apiKey client = (Except.error "Missing GOOGLE_API_KEY", []) := by
  rcases h with rfl | rfl
  · rfl
  · rfl

/-- Witness for C7's amended claim, at the empty-string credential. -/
theorem missing_key_fails_fast_witness :
    classifyTicket (some "") (fun _ => ModelResponse.apiError "x")
      = (Except.error "Missing GOOGLE_API_KEY", []) :=
  missing_key_fails_fast (some "") _ (Or.inr rfl)

/-- C8: the business-rule enforcement is idempotent on validated results. -/
theorem enforce_idempotent (d : Dict) (_hv : validatePayload d = true) :
    enforceRules (enforceRules d) = enforceRules d := by
  rcases Bool.eq_false_or_eq_true (urgencyCritical d || confidenceBelow d) with hc | hc
  · have h1 : enforceRules d = setKey d "needs_human" (Json.bool true) := by
      unfold enforceRules
      rw [if_pos hc]
    have hc2 : (urgencyCritical (setKey d "needs_human" (Json.bool true))
        || confidenceBelow (setKey d "needs_human" (Json.bool true))) = true := by
      rw [urgencyCritical_setKey_nh, confidenceBelow_setKey_nh]
      exact hc
    rw [h1]
    unfold enforceRules
    rw [if_pos hc2, setKey_setKey_same]
  · rw [enforceRules_of_cond_false d hc, enforceRules_of_cond_false d hc]

/-- Witness for C8 on a concrete validated payload. -/
theorem enforce_idempotent_witness :
    enforceRules (enforceRules validSample) = enforceRules validSample :=
  enforce_idempotent validSample rfl

/-- Sample payload with non-critical urgency and confidence at least 0.7. -/
def calmSample : Dict :=
  [("urgency", Json.str "low"), ("intent", Json.str "feedback"),
   ("product_area", Json.str "general"), ("language", Json.str "en"),
   ("confidence", Json.num 0.9), ("suggested_reply", Json.str "Thanks!"),
   ("needs_human", Json.bool false)]

/-- C9: the enforcement step is a frame on everything but `needs_human`:
every other key reads the same before and after; and on a validated result
with non-critical urgency and confidence at least 0.7 it is the identity,
so the model's own `needs_human` (true or false) passes through. -/
theorem enforce_frame (d : Dict) :
    (∀ k, k ≠ "needs_human" → lookupKey (enforceRules d) k = lookupKey d k) ∧
    (validatePayload d = true →
      (∃ s, lookupKey d "urgency" = some (Json.str s) ∧ s ≠ "critical") →
      (∃ q, lookupKey d "confidence" = some (Json.num q) ∧ 0.7 ≤ q) →
      enforceRules d = d) := by
  constructor
  · exact fun k hk => enforceRules_lookup_ne d k hk
  · rintro _ ⟨s, hs, hsc⟩ ⟨q, hq, hqc⟩
    apply enforceRules_of_cond_false
    have hu : urgencyCritical d = false := by
      unfold urgencyCritical
      rw [hs]
      simp [hsc]
    have hcb : confidenceBelow d = false := by
      unfold confidenceBelow
      rw [hq]
      exact decide_eq_false (not_lt.mpr hqc)
    rw [hu, hcb]
    rfl

/-- Witness for C9: a key other than `needs_human` is untouched, and on a
calm validated payload the enforcement is the identity. -/
theorem enforce_frame_witness :
    lookupKey (enforceRules calmSample) "urgency" = lookupKey calmSample "urgency" ∧
    enforceRules calmSample = calmSample :=
  ⟨(enforce_frame calmSample).1 "urgency" (by decide),
   (enforce_frame calmSample).2 rfl ⟨"low", rfl, by decide⟩ ⟨0.9, rfl, by norm_num⟩⟩

/-- C10: a success outcome of `classify_ticket` is the raw JSON-decoded
payload of the succeeding attempt — not the pydantic object built at line
85, which is discarded — with only `latency_ms` attached and `needs_human`
possibly overridden: every other key, including any extra key beyond the
seven schema fields, reads exactly as in the raw payload. -/
theorem success_returns_raw_dict (apiKey : Option String) (client : ℕ → ModelResponse)
    (d : Dict) (t : List Event)
    (h : classifyTicket apiKey client = (Except.ok (Outcome.ok d), t)) :
    ∃ n fields lat, client n = ModelResponse.payload fields lat ∧
      validatePayload fields = true ∧
      d = enforceRules (setKey fields "latency_ms" (Json.num lat)) ∧
      ∀ k, k ≠ "latency_ms" → k ≠ "needs_human" → lookupKey d k = lookupKey fields k := by
  rcases apiKey with _ | key
  · exfalso
    simp [classifyTicket] at h
  · by_cases hk : key = ""
    · exfalso
      simp [classifyTicket, hk] at h
    · simp only [classifyTicket] at h
      rw [if_neg hk] at h
      rw [Prod.mk.injEq] at h
      have h1 : (classifyLoop client MAX_RETRIES 1 none).1 = Outcome.ok d := Except.ok.inj h.1
      have h' : classifyLoop client MAX_RETRIES 1 none = (Outcome.ok d, t) := by
        rw [← h1, ← h.2]
      obtain ⟨n, fields, lat, hcn, hvf, hd⟩ := classifyLoop_ok client _ _ _ _ _ h'
      refine ⟨n, fields, lat, hcn, hvf, hd, ?_⟩
      intro k hk1 hk2
      rw [hd, enforceRules_lookup_ne _ _ hk2, lookupKey_setKey_ne _ _ _ _ hk1]

/-- Sample payload with an extra eighth key beyond the schema fields. -/
def extraSample : Dict :=
  [("urgency", Json.str "medium"), ("intent", Json.str "request"),
   ("product_area", Json.str "onboarding"), ("language", Json.str "en"),
   ("confidence", Json.num 0.8), ("suggested_reply", Json.str "Here is how."),
   ("needs_human", Json.bool false), ("internal_note", Json.str "model extra")]

/-- Witness for C10: on a payload with an extra `internal_note` key the
success dict keeps every non-latency, non-escalation key of the raw
payload, the extra one included. -/
theorem success_returns_raw_dict_witness :
    ∃ n fields lat,
      (fun _ : ℕ => ModelResponse.payload extraSample 15) n
          = ModelResponse.payload fields lat ∧
      validatePayload fields = true ∧
      enforceRules (setKey extraSample "latency_ms" (Json.num 15))
          = enforceRules (setKey fields "latency_ms" (Json.num lat)) ∧
      ∀ k, k ≠ "latency_ms" → k ≠ "needs_human" →
        lookupKey (enforceRules (setKey extraSample "latency_ms" (Json.num 15))) k
          = lookupKey fields k :=
  success_returns_raw_dict (some "key") (fun _ => ModelResponse.payload extraSample 15)
    (enforceRules (setKey extraSample "latency_ms" (Json.num 15))) [Event.call 1] rfl

end TicketClassifier
